import Mathlib

/-!
Verification of the vectorized constructive-geometry dispatch layer
(`pygeos/constructive.py`): the parameter-normalization and kernel-dispatch
logic of `buffer`, `boundary`, `centroid` and `simplify`, embedded shallowly.
The geometry kernel (`ufuncs`) is external; where a claim depends on its
documented behavior the kernel is modelled from the spec, with the purely
algorithmic core left as an arbitrary function field of `GeomKernel`.
-/

set_option autoImplicit false

namespace PyGeos

/-- A geometry value: an opaque 2-D geometry handle or the distinguished
`Empty` value.  The layer never inspects coordinates; constructors carry
them only so that distinct concrete geometries exist. -/
inductive Geom where
  | empty
  | point (x y : Rat)
  | line (coords : List (Rat × Rat))
  | polygon (shell : List (Rat × Rat))
  deriving DecidableEq

/-- Tests whether `g` is the Empty geometry. -/
def Geom.isEmpty : Geom → Bool
  | .empty => true
  | _ => false

/-- Tests whether `g` is a point geometry. -/
def Geom.isPoint : Geom → Bool
  | .point _ _ => true
  | _ => false

/-- Tests whether `g` is a line geometry. -/
def Geom.isLine : Geom → Bool
  | .line _ => true
  | _ => false

/-- A geometry argument to an operation: a scalar geometry or an ordered
array of geometries (`Geometry or array_like` in the source). -/
inductive GeoInput where
  | scalar (g : Geom)
  | array (gs : List Geom)
  deriving DecidableEq

/-- A Python value passed as a parameter: a scalar (string, integer, float
or boolean) or an array-like value.  Floats are modelled as rationals; the
layer only passes them through or compares them, never does float
arithmetic. -/
inductive Param where
  | str (s : String)
  | int (n : Int)
  | float (q : Rat)
  | bool (b : Bool)
  | arr (n : Nat)
  deriving DecidableEq

/-- Models `np.isscalar`: true for Python scalars (str, int, float, bool), false
for array-like values. -/
def Param.isScalar : Param → Bool
  | .arr _ => false
  | _ => true

/-- The parameter is an array (non-scalar) value. -/
def Param.isArr : Param → Bool
  | .arr _ => true
  | _ => false

/-- Models `isinstance(v, str)`. -/
def Param.isStr : Param → Bool
  | .str _ => true
  | _ => false

/-- Python truthiness, as applied by `np.bool(...)` (an alias of the
builtin `bool`) to a scalar value. -/
def Param.truthy : Param → Bool
  | .str s => s ≠ ""
  | .int n => n ≠ 0
  | .float q => q ≠ 0
  | .bool b => b
  | .arr n => n ≠ 0

/-- Python's `str.upper()` on the ASCII style names: uppercase each
character. -/
def pyUpper (s : String) : String :=
  ⟨s.data.map Char.toUpper⟩

/-- Models `class BufferCapStyles(IntEnum): ROUND = 1; FLAT = 2; SQUARE = 3` —
the enum's name-to-value table, as used by `BufferCapStyles[name]`. -/
def BufferCapStyles : List (String × Int) :=
  [("ROUND", 1), ("FLAT", 2), ("SQUARE", 3)]

/-- Models `class BufferJoinStyles(IntEnum): ROUND = 1; MITRE = 2; BEVEL = 3` —
the enum's name-to-value table, as used by `BufferJoinStyles[name]`. -/
def BufferJoinStyles : List (String × Int) :=
  [("ROUND", 1), ("MITRE", 2), ("BEVEL", 3)]

/-- Errors raised by the dispatch layer before any kernel invocation. -/
inductive BufferError where
  /-- A `KeyError` from `Enum[name]`: an unrecognized style name; carries the
  enum's name and the offending (uppercased) value. -/
  | enumKeyError (enum : String) (badName : String)
  /-- A `TypeError("<param> only accepts scalar values")`: a scalar-only
  parameter was given an array; carries the offending parameter's name. -/
  | typeError (param : String)
  /-- A `ValueError` from `np.intc(...)` on a value with no integer
  interpretation; carries the offending parameter's name. -/
  | valueError (param : String)
  deriving DecidableEq

/-- The error is the scalar-only `TypeError` (invalid-parameter-shape). -/
def BufferError.isShapeError : BufferError → Bool
  | .typeError _ => true
  | _ => false

/-- The error is the `KeyError` from enum-name lookup (invalid-enum-value). -/
def BufferError.isEnumError : BufferError → Bool
  | .enumKeyError _ _ => true
  | _ => false

/-- Truncation of a rational toward zero, as C integer conversion of a
float does. -/
def ratTrunc (q : Rat) : Int :=
  if q < 0 then -(Rat.floor (-q)) else Rat.floor q

/-- Modelled from the spec: `np.intc` coerces to a fixed-width (32-bit)
signed integer representation; on in-range values it is the identity,
out-of-range coercion is undefined and deferred (modelled as wrapping). -/
def npIntc (n : Int) : Int :=
  (n + 2 ^ 31) % 2 ^ 32 - 2 ^ 31

/-- The integer `np.intc(v)` produces for a scalar Python value `v`, or
`none` when the conversion raises (`ValueError` on a non-numeric string). -/
def Param.asIntc : Param → Option Int
  | .int n => some (npIntc n)
  | .bool b => some (if b then 1 else 0)
  | .float q => some (npIntc (ratTrunc q))
  | .str s => (s.toInt?).map npIntc
  | .arr _ => none

/-- Lines 130–131: `if isinstance(cap_style, str): cap_style =
BufferCapStyles[cap_style.upper()].value`.  A non-string passes through
unchanged; an unrecognized name raises `KeyError`. -/
def resolveCap (v : Param) : Except BufferError Param :=
  match v with
  | .str s =>
    match BufferCapStyles.lookup (pyUpper s) with
    | some code => .ok (.int code)
    | none => .error (.enumKeyError "BufferCapStyles" (pyUpper s))
  | _ => .ok v

/-- Lines 132–133: the same resolution for `join_style` against
`BufferJoinStyles`. -/
def resolveJoin (v : Param) : Except BufferError Param :=
  match v with
  | .str s =>
    match BufferJoinStyles.lookup (pyUpper s) with
    | some code => .ok (.int code)
    | none => .error (.enumKeyError "BufferJoinStyles" (pyUpper s))
  | _ => .ok v

/-- The fully-resolved argument tuple of the kernel call
`ufuncs.buffer(geometry, radius, np.intc(quadsegs), np.intc(cap_style),
np.intc(join_style), mitre_limit, np.bool(single_sided))`. -/
structure KernelCall where
  geometry : GeoInput
  radius : Rat
  quadsegs : Int
  cap_style : Int
  join_style : Int
  mitre_limit : Param
  single_sided : Bool
  deriving DecidableEq

/-- Lines 134–152 of `buffer`, after style resolution: the scalar-only
checks in source order (`quadsegs`, `cap_style`, `join_style`,
`mitre_limit`, `single_sided`), then the numeric coercions and the kernel
call's argument tuple. -/
def bufferChecks (geometry : GeoInput) (radius : Rat)
    (quadsegs cap join mitre_limit single_sided : Param) :
    Except BufferError KernelCall :=
  if ¬ quadsegs.isScalar then
    .error (.typeError "quadsegs")
  else if ¬ cap.isScalar then
    .error (.typeError "cap_style")
  else if ¬ join.isScalar then
    .error (.typeError "join_style")
  else if ¬ mitre_limit.isScalar then
    .error (.typeError "mitre_limit")
  else if ¬ single_sided.isScalar then
    .error (.typeError "single_sided")
  else
    match quadsegs.asIntc with
    | none => .error (.valueError "quadsegs")
    | some qI =>
      match cap.asIntc with
      | none => .error (.valueError "cap_style")
      | some capI =>
        match join.asIntc with
        | none => .error (.valueError "join_style")
        | some joinI =>
          .ok ⟨geometry, radius, qI, capI, joinI, mitre_limit,
               single_sided.truthy⟩

/-- The front end of `buffer` (lines 130–152): resolve string style names
(an unrecognized name's `KeyError` propagates), then enforce the
scalar-only contract and produce the kernel call.  `Except.error` models
an exception raised before the kernel primitive is invoked. -/
def buffer (geometry : GeoInput) (radius : Rat)
    (quadsegs cap_style join_style mitre_limit single_sided : Param) :
    Except BufferError KernelCall :=
  match resolveCap cap_style with
  | .error e => .error e
  | .ok cap =>
    match resolveJoin join_style with
    | .error e => .error e
    | .ok join =>
      bufferChecks geometry radius quadsegs cap join mitre_limit
        single_sided

/-- The purely algorithmic cores of the external geometry kernel, opaque
to this layer: an arbitrary interpretation of the primitives on inputs not
fixed by the spec's documented edge cases. -/
structure GeomKernel where
  boundaryNE : Geom → Geom
  centroidNE : Geom → Geom
  bufferCore : Geom → Rat → Int → Int → Int → Param → Bool → Geom

/-- Modelled from the spec: the kernel's ufunc machinery (`ufuncs`, not in
the visible source) applies a primitive element-wise over a geometry
argument — to the single geometry of a scalar input, and to each element
in order of an array input. -/
def ufuncApply (f : Geom → Geom) : GeoInput → GeoInput
  | .scalar g => .scalar (f g)
  | .array gs => .array (gs.map f)

/-- Modelled from the spec: the kernel's scalar buffer primitive.  The
buffer of Empty is Empty; the negative or zero-distance buffer of lines
and points is always empty; everything else is kernel-internal. -/
def kernelBufferScalar (k : GeomKernel) (radius : Rat)
    (quadsegs cap join : Int) (mitre : Param) (ssided : Bool)
    (g : Geom) : Geom :=
  if g.isEmpty then .empty
  else if (g.isLine || g.isPoint) && decide (radius ≤ 0) then .empty
  else k.bufferCore g radius quadsegs cap join mitre ssided

/-- Modelled from the spec: `ufuncs.buffer`, applying the kernel's buffer
primitive element-wise with the resolved scalar parameters. -/
def ufuncsBuffer (k : GeomKernel) (c : KernelCall) : GeoInput :=
  ufuncApply
    (kernelBufferScalar k c.radius c.quadsegs c.cap_style c.join_style
      c.mitre_limit c.single_sided)
    c.geometry

/-- The full buffer operation: the front end of `buffer` followed, when it
succeeds, by the kernel invocation. -/
def bufferFull (k : GeomKernel) (geometry : GeoInput) (radius : Rat)
    (quadsegs cap_style join_style mitre_limit single_sided : Param) :
    Except BufferError GeoInput :=
  (buffer geometry radius quadsegs cap_style join_style mitre_limit
    single_sided).map (ufuncsBuffer k)

/-- Modelled from the spec: the kernel's scalar boundary primitive;
`boundary(Empty)` is Empty, the rest is kernel-internal. -/
def kernelBoundaryScalar (k : GeomKernel) (g : Geom) : Geom :=
  if g.isEmpty then .empty else k.boundaryNE g

/-- Models `def boundary(geometry): return ufuncs.boundary(geometry)`
(lines 36–61), with `ufuncs.boundary` modelled as the element-wise
application of the kernel's boundary primitive. -/
def boundary (k : GeomKernel) (geometry : GeoInput) : GeoInput :=
  ufuncApply (kernelBoundaryScalar k) geometry

/-- Modelled from the spec: the kernel's scalar centroid primitive;
`centroid(Empty)` is Empty, the rest is kernel-internal. -/
def kernelCentroidScalar (k : GeomKernel) (g : Geom) : Geom :=
  if g.isEmpty then .empty else k.centroidNE g

/-- Models `def centroid(geometries): return ufuncs.centroid(geometries)`
(lines 155–178), with `ufuncs.centroid` modelled as the element-wise
application of the kernel's centroid primitive. -/
def centroid (k : GeomKernel) (geometries : GeoInput) : GeoInput :=
  ufuncApply (kernelCentroidScalar k) geometries

/-- The kernel primitive a `simplify` call dispatches to, with its
arguments: `ufuncs.simplify_preserve_topology` or `ufuncs.simplify` are
distinct primitives, not parameter variants of one call. -/
inductive SimplifyCall where
  | simplify_preserve_topology (geometries : GeoInput) (tolerance : Rat)
  | simplify (geometries : GeoInput) (tolerance : Rat)
  deriving DecidableEq

/-- Models `def simplify(geometries, tolerance, preserve_topology=False)`
(lines 201–205): branch on the boolean flag to one of two kernel
primitives. -/
def simplify (geometries : GeoInput) (tolerance : Rat)
    (preserve_topology : Bool) : SimplifyCall :=
  if preserve_topology then
    .simplify_preserve_topology geometries tolerance
  else
    .simplify geometries tolerance

/-- The first parameter, in the source's check order `quadsegs, cap_style,
join_style, mitre_limit, single_sided`, whose (style-resolved) value is
not a scalar. -/
def firstNonScalarName (q c j m ss : Param) : Option String :=
  if ¬ q.isScalar then some "quadsegs"
  else if ¬ c.isScalar then some "cap_style"
  else if ¬ j.isScalar then some "join_style"
  else if ¬ m.isScalar then some "mitre_limit"
  else if ¬ ss.isScalar then some "single_sided"
  else none

/-- A concrete kernel interpretation, used only to instantiate witnesses. -/
def trivialKernel : GeomKernel where
  boundaryNE := fun _ => .empty
  centroidNE := fun _ => .empty
  bufferCore := fun g _ _ _ _ _ _ => g


lemma isScalar_eq_not_isArr (p : Param) : p.isScalar = !p.isArr := by
  cases p <;> rfl

lemma line_point_not_empty {g : Geom} (h : g.isLine = true ∨ g.isPoint = true) :
    g.isEmpty = false := by
  cases g <;> simp [Geom.isLine, Geom.isPoint, Geom.isEmpty] at *

lemma resolveCap_ok_isScalar {c c' : Param} (h : resolveCap c = .ok c') :
    c'.isScalar = c.isScalar := by
  cases c with
  | str s =>
    cases hl : BufferCapStyles.lookup (pyUpper s) with
    | some code => simp [resolveCap, hl] at h; subst h; rfl
    | none => simp [resolveCap, hl] at h
  | int n => simp [resolveCap] at h; subst h; rfl
  | float q => simp [resolveCap] at h; subst h; rfl
  | bool b => simp [resolveCap] at h; subst h; rfl
  | arr n => simp [resolveCap] at h; subst h; rfl

lemma resolveJoin_ok_isScalar {c c' : Param} (h : resolveJoin c = .ok c') :
    c'.isScalar = c.isScalar := by
  cases c with
  | str s =>
    cases hl : BufferJoinStyles.lookup (pyUpper s) with
    | some code => simp [resolveJoin, hl] at h; subst h; rfl
    | none => simp [resolveJoin, hl] at h
  | int n => simp [resolveJoin] at h; subst h; rfl
  | float q => simp [resolveJoin] at h; subst h; rfl
  | bool b => simp [resolveJoin] at h; subst h; rfl
  | arr n => simp [resolveJoin] at h; subst h; rfl

lemma resolveCap_error_isEnum {c : Param} {e : BufferError}
    (h : resolveCap c = .error e) : e.isEnumError = true := by
  cases c with
  | str s =>
    cases hl : BufferCapStyles.lookup (pyUpper s) with
    | some code => simp [resolveCap, hl] at h
    | none => simp [resolveCap, hl] at h; subst h; rfl
  | int n => simp [resolveCap] at h
  | float q => simp [resolveCap] at h
  | bool b => simp [resolveCap] at h
  | arr n => simp [resolveCap] at h

lemma buffer_resolved {c j c' j' : Param} (G : GeoInput) (r : Rat)
    (q m ss : Param) (hc : resolveCap c = .ok c') (hj : resolveJoin j = .ok j') :
    buffer G r q c j m ss = bufferChecks G r q c' j' m ss := by
  unfold buffer
  rw [hc, hj]

lemma bufferChecks_first_nonscalar (G : GeoInput) (r : Rat)
    (q c j m ss : Param) (p : String)
    (hp : firstNonScalarName q c j m ss = some p) :
    bufferChecks G r q c j m ss = .error (.typeError p) := by
  unfold firstNonScalarName at hp
  unfold bufferChecks
  split_ifs at hp with h1 h2 h3 h4 h5 <;>
    (injection hp with hp; subst hp; simp_all)

lemma resolveJoin_error_isEnum {c : Param} {e : BufferError}
    (h : resolveJoin c = .error e) : e.isEnumError = true := by
  cases c with
  | str s =>
    cases hl : BufferJoinStyles.lookup (pyUpper s) with
    | some code => simp [resolveJoin, hl] at h
    | none => simp [resolveJoin, hl] at h; subst h; rfl
  | int n => simp [resolveJoin] at h
  | float q => simp [resolveJoin] at h
  | bool b => simp [resolveJoin] at h
  | arr n => simp [resolveJoin] at h

lemma buffer_cap_error {c : Param} {e : BufferError} (G : GeoInput) (r : Rat)
    (q j m ss : Param) (hc : resolveCap c = .error e) :
    buffer G r q c j m ss = .error e := by
  unfold buffer
  rw [hc]

lemma buffer_join_error {c j c' : Param} {e : BufferError} (G : GeoInput)
    (r : Rat) (q m ss : Param) (hc : resolveCap c = .ok c')
    (hj : resolveJoin j = .error e) :
    buffer G r q c j m ss = .error e := by
  unfold buffer
  rw [hc, hj]

lemma buffer_badstyle_enum_error (G : GeoInput) (r : Rat) (q c j m ss : Param)
    (h : (∃ s, c = Param.str s ∧ BufferCapStyles.lookup (pyUpper s) = none) ∨
         (∃ s, j = Param.str s ∧ BufferJoinStyles.lookup (pyUpper s) = none)) :
    ∃ e, buffer G r q c j m ss = Except.error e ∧ e.isEnumError = true := by
  rcases h with ⟨s, rfl, hl⟩ | ⟨s, rfl, hl⟩
  · refine ⟨.enumKeyError "BufferCapStyles" (pyUpper s), ?_, rfl⟩
    exact buffer_cap_error G r q j m ss (by simp [resolveCap, hl])
  · rcases hc : resolveCap c with e | c'
    · exact ⟨e, buffer_cap_error G r q (.str s) m ss hc, resolveCap_error_isEnum hc⟩
    · refine ⟨.enumKeyError "BufferJoinStyles" (pyUpper s), ?_, rfl⟩
      exact buffer_join_error G r q m ss hc (by simp [resolveJoin, hl])

lemma buffer_ok_geom_radius {G : GeoInput} {r : Rat} {q c j m ss : Param}
    {call : KernelCall} (h : buffer G r q c j m ss = .ok call) :
    call.geometry = G ∧ call.radius = r := by
  rcases hc : resolveCap c with e | c'
  · rw [buffer_cap_error G r q j m ss hc] at h
    cases h
  · rcases hj : resolveJoin j with e | j'
    · rw [buffer_join_error G r q m ss hc hj] at h
      cases h
    · rw [buffer_resolved G r q m ss hc hj] at h
      unfold bufferChecks at h
      split_ifs at h
      repeat' split at h
      all_goals (cases h <;> exact ⟨rfl, rfl⟩)

lemma buffer_typeerror_of_first {c j c' j' : Param} (G : GeoInput) (r : Rat)
    (q m ss : Param) (p : String)
    (hc : resolveCap c = .ok c') (hj : resolveJoin j = .ok j')
    (hp : firstNonScalarName q c' j' m ss = some p) :
    buffer G r q c j m ss = .error (.typeError p) ∧
      ∀ k, bufferFull k G r q c j m ss = .error (.typeError p) := by
  have h1 : buffer G r q c j m ss = .error (.typeError p) :=
    (buffer_resolved G r q m ss hc hj).trans
      (bufferChecks_first_nonscalar G r q c' j' m ss p hp)
  exact ⟨h1, fun k => by unfold bufferFull; rw [h1]; rfl⟩

lemma resolveCap_ok_isArr {c c' : Param} (h : resolveCap c = .ok c') :
    c'.isArr = c.isArr := by
  have := resolveCap_ok_isScalar h
  rw [isScalar_eq_not_isArr, isScalar_eq_not_isArr] at this
  exact Bool.not_inj this

lemma resolveJoin_ok_isArr {c c' : Param} (h : resolveJoin c = .ok c') :
    c'.isArr = c.isArr := by
  have := resolveJoin_ok_isScalar h
  rw [isScalar_eq_not_isArr, isScalar_eq_not_isArr] at this
  exact Bool.not_inj this

lemma npIntc_of_in_range {n : Int} (h1 : -(2 ^ 31) ≤ n) (h2 : n < 2 ^ 31) :
    npIntc n = n := by
  unfold npIntc
  omega

/-- C1: calling `buffer` with the string form of a cap or join style
produces the identical kernel call, and hence the identical result, as
calling it with the corresponding canonical integer code. -/
theorem buffer_string_style_equals_int_style (G : GeoInput) (r : Rat)
    (q m ss : Param) (cn jn : String) (cc jc : Int)
    (hcap : BufferCapStyles.lookup (pyUpper cn) = some cc)
    (hjoin : BufferJoinStyles.lookup (pyUpper jn) = some jc) :
    buffer G r q (.str cn) (.str jn) m ss
      = buffer G r q (.int cc) (.int jc) m ss ∧
    ∀ k : GeomKernel, bufferFull k G r q (.str cn) (.str jn) m ss
      = bufferFull k G r q (.int cc) (.int jc) m ss := by
  have h1 : buffer G r q (.str cn) (.str jn) m ss
      = bufferChecks G r q (.int cc) (.int jc) m ss :=
    buffer_resolved G r q m ss (by simp [resolveCap, hcap])
      (by simp [resolveJoin, hjoin])
  have h2 : buffer G r q (.int cc) (.int jc) m ss
      = bufferChecks G r q (.int cc) (.int jc) m ss :=
    buffer_resolved G r q m ss rfl rfl
  refine ⟨h1.trans h2.symm, fun k => ?_⟩
  unfold bufferFull
  rw [h1, h2]

/-- Witness for C1 at `cap_style="round"` (code 1), `join_style="mitre"`
(code 2). -/
theorem buffer_string_style_equals_int_style_witness :
    BufferCapStyles.lookup (pyUpper "round") = some 1 ∧
    BufferJoinStyles.lookup (pyUpper "mitre") = some 2 ∧
    buffer (.scalar (.point 10 10)) 2 (.int 8) (.str "round") (.str "mitre")
        (.float 5) (.bool false)
      = buffer (.scalar (.point 10 10)) 2 (.int 8) (.int 1) (.int 2)
        (.float 5) (.bool false) :=
  ⟨rfl, rfl,
   (buffer_string_style_equals_int_style _ _ _ _ _ "round" "mitre" 1 2
     rfl rfl).1⟩

/-- C2 counterexample: `buffer` called with an array `quadsegs` but an
unrecognized `cap_style` string fails with the enum `KeyError`, not with
the scalar-only type error, so an array parameter does not always produce
the invalid-parameter-shape failure. -/
theorem buffer_array_param_counterexample :
    Param.isArr (.arr 0) = true ∧
    buffer (.scalar (.point 10 10)) 1 (.arr 0) (.str "hexagon")
        (.str "round") (.float 5) (.bool false)
      = .error (.enumKeyError "BufferCapStyles" "HEXAGON") ∧
    BufferError.isShapeError (.enumKeyError "BufferCapStyles" "HEXAGON")
      = false :=
  ⟨rfl, rfl, rfl⟩

/-- C2 (amended): when the style arguments resolve (any string among them
is a recognized name), a call with an array for any of `quadsegs`,
`cap_style`, `join_style`, `mitre_limit`, `single_sided` fails with the
scalar-only type error naming an offending array parameter, before any
kernel primitive is invoked. -/
theorem buffer_scalar_only_enforcement (G : GeoInput) (r : Rat)
    (q c j m ss c' j' : Param)
    (hc : resolveCap c = .ok c') (hj : resolveJoin j = .ok j')
    (h : q.isArr = true ∨ c.isArr = true ∨ j.isArr = true ∨
         m.isArr = true ∨ ss.isArr = true) :
    ∃ p, buffer G r q c j m ss = .error (.typeError p) ∧
      (∀ k, bufferFull k G r q c j m ss = .error (.typeError p)) ∧
      ((p = "quadsegs" ∧ q.isArr = true) ∨ (p = "cap_style" ∧ c.isArr = true) ∨
       (p = "join_style" ∧ j.isArr = true) ∨ (p = "mitre_limit" ∧ m.isArr = true) ∨
       (p = "single_sided" ∧ ss.isArr = true)) := by
  have hca : c'.isArr = c.isArr := resolveCap_ok_isArr hc
  have hja : j'.isArr = j.isArr := resolveJoin_ok_isArr hj
  by_cases hq : q.isArr = true
  · obtain ⟨e1, e2⟩ := buffer_typeerror_of_first G r q m ss "quadsegs" hc hj
      (by simp [firstNonScalarName, isScalar_eq_not_isArr, hq])
    exact ⟨"quadsegs", e1, e2, Or.inl ⟨rfl, hq⟩⟩
  · simp only [Bool.not_eq_true] at hq
    by_cases hcb : c.isArr = true
    · obtain ⟨e1, e2⟩ := buffer_typeerror_of_first G r q m ss "cap_style" hc hj
        (by simp [firstNonScalarName, isScalar_eq_not_isArr, hq, hca, hcb])
      exact ⟨"cap_style", e1, e2, Or.inr (Or.inl ⟨rfl, hcb⟩)⟩
    · simp only [Bool.not_eq_true] at hcb
      by_cases hjb : j.isArr = true
      · obtain ⟨e1, e2⟩ := buffer_typeerror_of_first G r q m ss "join_style" hc hj
          (by simp [firstNonScalarName, isScalar_eq_not_isArr, hq, hca, hcb, hja, hjb])
        exact ⟨"join_style", e1, e2, Or.inr (Or.inr (Or.inl ⟨rfl, hjb⟩))⟩
      · simp only [Bool.not_eq_true] at hjb
        by_cases hm : m.isArr = true
        · obtain ⟨e1, e2⟩ := buffer_typeerror_of_first G r q m ss "mitre_limit" hc hj
            (by simp [firstNonScalarName, isScalar_eq_not_isArr, hq, hca, hcb, hja, hjb, hm])
          exact ⟨"mitre_limit", e1, e2, Or.inr (Or.inr (Or.inr (Or.inl ⟨rfl, hm⟩)))⟩
        · simp only [Bool.not_eq_true] at hm
          by_cases hs : ss.isArr = true
          · obtain ⟨e1, e2⟩ := buffer_typeerror_of_first G r q m ss "single_sided" hc hj
              (by simp [firstNonScalarName, isScalar_eq_not_isArr, hq, hca, hcb, hja, hjb, hm, hs])
            exact ⟨"single_sided", e1, e2, Or.inr (Or.inr (Or.inr (Or.inr ⟨rfl, hs⟩)))⟩
          · simp only [Bool.not_eq_true] at hs
            simp [hq, hcb, hjb, hm, hs] at h

/-- Witness for amended C2: an array `quadsegs` with all other parameters
valid scalars. -/
theorem buffer_scalar_only_enforcement_witness :
    ∃ p, buffer (.scalar (.point 10 10)) 1 (.arr 0) (.int 1) (.int 1)
        (.float 5) (.bool false) = .error (.typeError p) ∧
      (∀ k, bufferFull k (.scalar (.point 10 10)) 1 (.arr 0) (.int 1)
        (.int 1) (.float 5) (.bool false) = .error (.typeError p)) ∧
      ((p = "quadsegs" ∧ Param.isArr (.arr 0) = true) ∨
       (p = "cap_style" ∧ Param.isArr (.int 1) = true) ∨
       (p = "join_style" ∧ Param.isArr (.int 1) = true) ∨
       (p = "mitre_limit" ∧ Param.isArr (.float 5) = true) ∨
       (p = "single_sided" ∧ Param.isArr (.bool false) = true)) :=
  buffer_scalar_only_enforcement _ _ _ _ _ _ _ _ _ rfl rfl (Or.inl rfl)

/-- C3: an element-wise operation applied to a geometry array yields an
array of the same length, in the same order, whose i-th element equals
the operation applied to the i-th input alone — no cross-element
interaction. -/
theorem ufuncApply_elementwise (f : Geom → Geom) (A : List Geom) :
    ∃ B : List Geom, ufuncApply f (.array A) = .array B ∧
      B.length = A.length ∧
      ∀ i : Nat, i < A.length →
        ∃ a, A[i]? = some a ∧ B[i]? = some (f a) ∧
          ufuncApply f (.scalar a) = .scalar (f a) := by
  refine ⟨A.map f, rfl, by simp, fun i hi => ?_⟩
  refine ⟨A[i], by simp [List.getElem?_eq_getElem hi], ?_, rfl⟩
  simp [List.getElem?_eq_getElem, hi]

/-- C4: `simplify` with `preserve_topology=True` dispatches to the
`simplify_preserve_topology` kernel primitive and with
`preserve_topology=False` to the distinct `simplify` primitive; the two
dispatches are never equal. -/
theorem simplify_selects_distinct_primitive (g : GeoInput) (t : Rat) :
    simplify g t true = SimplifyCall.simplify_preserve_topology g t ∧
    simplify g t false = SimplifyCall.simplify g t ∧
    simplify g t true ≠ simplify g t false := by
  refine ⟨rfl, rfl, ?_⟩
  simp [simplify]

/-- C5: an unrecognized cap- or join-style string makes `buffer` fail with
the invalid-enum-value error, and the kernel is never invoked. -/
theorem buffer_unknown_style_name_enum_error (G : GeoInput) (r : Rat)
    (q c j m ss : Param)
    (h : (∃ s, c = Param.str s ∧ BufferCapStyles.lookup (pyUpper s) = none) ∨
         (∃ s, j = Param.str s ∧ BufferJoinStyles.lookup (pyUpper s) = none)) :
    ∃ e, buffer G r q c j m ss = Except.error e ∧ e.isEnumError = true ∧
      ∀ k, bufferFull k G r q c j m ss = Except.error e := by
  obtain ⟨e, he, henum⟩ := buffer_badstyle_enum_error G r q c j m ss h
  exact ⟨e, he, henum, fun k => by unfold bufferFull; rw [he]; rfl⟩

/-- Witness for C5 at `cap_style="hexagon"`. -/
theorem buffer_unknown_style_name_enum_error_witness :
    ∃ e, buffer (.scalar (.point 10 10)) 2 (.int 8) (.str "hexagon")
        (.str "round") (.float 5) (.bool false) = Except.error e ∧
      e.isEnumError = true ∧
      ∀ k, bufferFull k (.scalar (.point 10 10)) 2 (.int 8) (.str "hexagon")
        (.str "round") (.float 5) (.bool false) = Except.error e :=
  buffer_unknown_style_name_enum_error _ _ _ _ _ _ _
    (Or.inl ⟨"hexagon", rfl, rfl⟩)

/-- C6: `boundary(Empty)`, `centroid(Empty)` and `buffer(Empty, 1)` each
return the Empty geometry, for every kernel interpretation. -/
theorem empty_propagation (k : GeomKernel) :
    boundary k (.scalar .empty) = .scalar .empty ∧
    centroid k (.scalar .empty) = .scalar .empty ∧
    bufferFull k (.scalar .empty) 1 (.int 8) (.str "round") (.str "round")
      (.float 5) (.bool false) = .ok (.scalar .empty) :=
  ⟨rfl, rfl, rfl⟩

/-- C7: buffering a line or point geometry with a non-positive radius
returns Empty whenever the call succeeds, for every kernel
interpretation and every choice of the remaining parameters. -/
theorem buffer_nonpositive_line_point_empty (k : GeomKernel) (g : Geom)
    (hg : g.isLine = true ∨ g.isPoint = true) (r : Rat) (hr : r ≤ 0)
    (q c j m ss : Param) (out : GeoInput)
    (h : bufferFull k (.scalar g) r q c j m ss = .ok out) :
    out = .scalar .empty := by
  unfold bufferFull at h
  rcases hb : buffer (.scalar g) r q c j m ss with e | call
  · rw [hb] at h
    cases h
  · rw [hb] at h
    obtain ⟨hgeo, hrad⟩ := buffer_ok_geom_radius hb
    injection h with h
    subst h
    unfold ufuncsBuffer
    rw [hgeo, hrad]
    rcases hg with hgl | hgp
    · simp [ufuncApply, kernelBufferScalar, line_point_not_empty (Or.inl hgl),
        hgl, hr]
    · simp [ufuncApply, kernelBufferScalar, line_point_not_empty (Or.inr hgp),
        hgp, hr]

/-- Witness for C7: a zero-radius buffer of a two-point line. -/
theorem buffer_nonpositive_line_point_empty_witness :
    (Geom.isLine (.line [(0, 0), (1, 1)]) = true ∨
     Geom.isPoint (.line [(0, 0), (1, 1)]) = true) ∧
    ((0 : Rat) ≤ 0) ∧ GeoInput.scalar Geom.empty = GeoInput.scalar Geom.empty :=
  ⟨Or.inl rfl, le_refl 0,
   buffer_nonpositive_line_point_empty trivialKernel (.line [(0, 0), (1, 1)])
     (Or.inl rfl) 0 (le_refl 0) (.int 8) (.str "round") (.str "round")
     (.float 5) (.bool false) (.scalar .empty) rfl⟩

/-- C8: style-name resolution is case-insensitive — two casings with the
same uppercasing resolve to the same code and give identical `buffer`
results, for both cap and join styles. -/
theorem buffer_style_case_insensitive (G : GeoInput) (r : Rat)
    (q m ss : Param) (s t u v : String)
    (hst : pyUpper s = pyUpper t) (huv : pyUpper u = pyUpper v) :
    resolveCap (.str s) = resolveCap (.str t) ∧
    resolveJoin (.str u) = resolveJoin (.str v) ∧
    buffer G r q (.str s) (.str u) m ss
      = buffer G r q (.str t) (.str v) m ss := by
  have h1 : resolveCap (.str s) = resolveCap (.str t) := by
    simp [resolveCap, hst]
  have h2 : resolveJoin (.str u) = resolveJoin (.str v) := by
    simp [resolveJoin, huv]
  refine ⟨h1, h2, ?_⟩
  unfold buffer
  rw [h1, h2]

/-- Witness for C8: `"Round"` and `"ROUND"` resolve identically. -/
theorem buffer_style_case_insensitive_witness :
    pyUpper "Round" = pyUpper "ROUND" ∧
    buffer (.scalar (.point 10 10)) 2 (.int 8) (.str "Round") (.str "round")
        (.float 5) (.bool false)
      = buffer (.scalar (.point 10 10)) 2 (.int 8) (.str "ROUND")
        (.str "ROUND") (.float 5) (.bool false) :=
  ⟨rfl,
   (buffer_style_case_insensitive _ _ _ _ _ "Round" "ROUND" "round" "ROUND"
     rfl rfl).2.2⟩

/-- C9: with in-range integer `quadsegs` and resolved style codes, a
boolean `single_sided` and a float `mitre_limit`, the kernel call carries
exactly the given values: the `np.intc`/`np.bool` coercions preserve the
semantic value, and `mitre_limit` is passed through unchanged. -/
theorem buffer_coercion_value_preserving (G : GeoInput) (r : Rat)
    (q c j : Int) (m : Rat) (b : Bool)
    (hq1 : -(2 ^ 31) ≤ q) (hq2 : q < 2 ^ 31)
    (hc1 : -(2 ^ 31) ≤ c) (hc2 : c < 2 ^ 31)
    (hj1 : -(2 ^ 31) ≤ j) (hj2 : j < 2 ^ 31) :
    buffer G r (.int q) (.int c) (.int j) (.float m) (.bool b)
      = .ok ⟨G, r, q, c, j, .float m, b⟩ := by
  unfold buffer resolveCap resolveJoin bufferChecks
  simp [Param.isScalar, Param.asIntc, Param.truthy,
    npIntc_of_in_range hq1 hq2, npIntc_of_in_range hc1 hc2,
    npIntc_of_in_range hj1 hj2]

/-- Witness for C9 at `quadsegs=8`, codes 1 and 2, `mitre_limit=5`,
`single_sided=true`. -/
theorem buffer_coercion_value_preserving_witness :
    (-(2 ^ 31) ≤ (8 : Int)) ∧ ((8 : Int) < 2 ^ 31) ∧
    buffer (.scalar (.point 10 10)) 2 (.int 8) (.int 1) (.int 2) (.float 5)
        (.bool true)
      = .ok ⟨.scalar (.point 10 10), 2, 8, 1, 2, .float 5, true⟩ :=
  ⟨by decide, by decide,
   buffer_coercion_value_preserving _ _ 8 1 2 5 true (by decide) (by decide)
     (by decide) (by decide) (by decide) (by decide)⟩

/-- C10: string-style resolution runs before all scalar-only checks — an
unrecognized style name wins over any array parameter — and when the
styles resolve, the type error names the first non-scalar parameter in
the fixed order `quadsegs, cap_style, join_style, mitre_limit,
single_sided`. -/
theorem buffer_validation_order (G : GeoInput) (r : Rat)
    (q c j m ss : Param) :
    ((q.isArr = true ∨ c.isArr = true ∨ j.isArr = true ∨
      m.isArr = true ∨ ss.isArr = true) →
      ((∃ s, c = Param.str s ∧ BufferCapStyles.lookup (pyUpper s) = none) ∨
       (∃ s, j = Param.str s ∧ BufferJoinStyles.lookup (pyUpper s) = none)) →
      ∃ e, buffer G r q c j m ss = Except.error e ∧ e.isEnumError = true) ∧
    (∀ c' j' p, resolveCap c = .ok c' → resolveJoin j = .ok j' →
      firstNonScalarName q c' j' m ss = some p →
      buffer G r q c j m ss = .error (.typeError p)) := by
  refine ⟨fun _ h => buffer_badstyle_enum_error G r q c j m ss h,
    fun c' j' p hc hj hp => ?_⟩
  rw [buffer_resolved G r q m ss hc hj]
  exact bufferChecks_first_nonscalar G r q c' j' m ss p hp

/-- Witness for C10: an unrecognized `cap_style` beats an array
`join_style`; with both `quadsegs` and `cap_style` arrays the error names
`quadsegs`. -/
theorem buffer_validation_order_witness :
    (∃ e, buffer (.scalar (.point 10 10)) 1 (.int 8) (.str "hexagon")
        (.arr 1) (.float 5) (.bool false) = Except.error e ∧
      e.isEnumError = true) ∧
    buffer (.scalar (.point 10 10)) 1 (.arr 0) (.arr 1) (.int 1) (.float 5)
        (.bool false)
      = .error (.typeError "quadsegs") :=
  ⟨(buffer_validation_order _ _ _ _ _ _ _).1
     (Or.inr (Or.inr (Or.inl rfl))) (Or.inl ⟨"hexagon", rfl, rfl⟩),
   (buffer_validation_order _ _ _ _ _ _ _).2 (.arr 1) (.int 1) "quadsegs"
     rfl rfl rfl⟩

end PyGeos
